import Mathlib

/-!
Shallow embedding of `src/services/lighthouseService.ts`:
the retry loop `fetchWithRetry` (lines 15-54) and the normalization part of
`fetchLighthouseMetrics` (lines 98-205), which maps the decoded JSON document
returned by the PageSpeed API to the fixed report shape.

JavaScript numbers are modelled as rationals; a JSON field read from the
document is three-valued (absent / null / a number), since the code
distinguishes `undefined` from `null` via `!== undefined`, and computed
JavaScript numbers that can be NaN are modelled by `JNum`.  String fields are
modelled as `Option String` because every read of one goes through `|| x`,
which treats `undefined` and `null` identically (the empty string, also falsy,
is modelled explicitly).  The embedding covers documents whose
`lighthouseResult` object carries its `audits` and `categories` tables, which
the code reads without optional chaining.
-/

/-- Value of a numeric JSON field of an object: the property can be missing
(`absent`, i.e. `undefined` in JavaScript), set to JSON `null`, or a number. -/
inductive JsonNum where
  | absent
  | jnull
  | num (q : ℚ)
deriving DecidableEq, Repr

/-- A computed JavaScript number: NaN or an actual (rational) value. -/
inductive JNum where
  | nan
  | num (q : ℚ)
deriving DecidableEq, Repr

namespace JsonNum

/-- JavaScript `x || 0`: `undefined`, `null` and `0` are falsy and give `0`. -/
def orZero : JsonNum → ℚ
  | .absent => 0
  | .jnull => 0
  | .num q => q

end JsonNum

/-- JavaScript division `x / d` of a JSON field by a nonzero constant:
`undefined / d` is NaN, `null` coerces to `0`. -/
def jsDiv (x : JsonNum) (d : ℚ) : JNum :=
  match x with
  | .absent => .nan
  | .jnull => .num (0 / d)
  | .num q => .num (q / d)

/-- JavaScript `Math.round`: round half towards positive infinity. -/
def jsRound (q : ℚ) : ℤ :=
  ⌊q + 1/2⌋

/-- Rounding to `d` decimal places, as `Number.prototype.toFixed(d)` followed
by `parseFloat` produces on an actual number. -/
def roundTo (d : ℕ) (q : ℚ) : ℚ :=
  (jsRound (q * 10 ^ d) : ℚ) / 10 ^ d

namespace JNum

/-- Composition of `toFixed(d)` and `parseFloat`: NaN formats as "NaN" which
parses back to NaN; a number is rounded to `d` decimals. -/
def toFixedParsed (d : ℕ) : JNum → JNum
  | .nan => .nan
  | .num q => .num (roundTo d q)

/-- JavaScript `x || 0` on a computed number: NaN and `0` are falsy. -/
def orZero : JNum → ℚ
  | .nan => 0
  | .num q => q

/-- JavaScript `Math.round` on a computed number: `Math.round(NaN)` is NaN. -/
def roundJ : JNum → JNum
  | .nan => .nan
  | .num q => .num (jsRound q)

end JNum

/-- JavaScript `s || fallback` on a string field: `undefined`, `null` and the
empty string are falsy. -/
def jsOr (s : Option String) (fallback : String) : String :=
  match s with
  | none => fallback
  | some s => if s = "" then fallback else s

/-- One row of the `details.items` list of the resource-summary audit. -/
structure RSItem where
  resourceType : Option String
  label : Option String
  transferSize : JsonNum
deriving DecidableEq, Repr

/-- The `details` object of an audit, of which only `items` is read. -/
structure AuditDetails where
  items : Option (List RSItem)
deriving DecidableEq, Repr

/-- An entry of the `lighthouseResult.audits` map, restricted to the fields
the code reads. -/
structure Audit where
  numericValue : JsonNum := .absent
  score : JsonNum := .absent
  title : Option String := none
  description : Option String := none
  details : Option AuditDetails := none
deriving DecidableEq, Repr

/-- An entry of the `lighthouseResult.categories` map. -/
structure Category where
  score : JsonNum := .absent
deriving DecidableEq, Repr

/-- The map of audits: `audits[id]` is `none` when the id is not a key. -/
abbrev AuditMap := String → Option Audit

/-- The map of categories. -/
abbrev CatMap := String → Option Category

/-- The `lighthouseResult` object with its two tables. -/
structure LighthouseResult where
  audits : AuditMap
  categories : CatMap

/-- The decoded JSON document handed to normalization; `lighthouseResult`
may be missing. -/
structure RawDocument where
  lighthouseResult : Option LighthouseResult

/-- Lookup `audits[id]?.numericValue`: the whole chain is `undefined` when
the id is absent from the map. -/
def numericValueOf (audits : AuditMap) (id : String) : JsonNum :=
  match audits id with
  | none => .absent
  | some a => a.numericValue

/-- Lookup `audits[id]?.score`. -/
def scoreOf (audits : AuditMap) (id : String) : JsonNum :=
  match audits id with
  | none => .absent
  | some a => a.score

/-- Lookup `audits[id]?.title`. -/
def titleOf (audits : AuditMap) (id : String) : Option String :=
  match audits id with
  | none => none
  | some a => a.title

/-- Lookup `audits[id]?.description`. -/
def descriptionOf (audits : AuditMap) (id : String) : Option String :=
  match audits id with
  | none => none
  | some a => a.description

/-- Lookup `categories[id]?.score`. -/
def catScoreOf (categories : CatMap) (id : String) : JsonNum :=
  match categories id with
  | none => .absent
  | some c => c.score

/-- The `PerformanceMetric` shape produced by the normalizer. -/
structure PerformanceMetric where
  name : String
  value : ℚ
  unit : String
  score : ℤ
  category : String
  description : String
deriving DecidableEq, Repr

/-- Computation `Math.round((audits[id]?.score || 0) * 100)`, the score of
every audit-based metric. -/
def metricScore (audits : AuditMap) (id : String) : ℤ :=
  jsRound ((scoreOf audits id).orZero * 100)

/-- The First Contentful Paint metric (lines 108-115 of the source). -/
def fcpMetric (audits : AuditMap) : PerformanceMetric :=
  { name := "First Contentful Paint"
  , value := ((jsDiv (numericValueOf audits "first-contentful-paint") 1000).toFixedParsed 2).orZero
  , unit := "s"
  , score := metricScore audits "first-contentful-paint"
  , category := "speed"
  , description := jsOr (descriptionOf audits "first-contentful-paint")
      "FCP measures how long it takes for the browser to render the first piece of DOM content." }

/-- The Largest Contentful Paint metric (lines 116-123). -/
def lcpMetric (audits : AuditMap) : PerformanceMetric :=
  { name := "Largest Contentful Paint"
  , value := ((jsDiv (numericValueOf audits "largest-contentful-paint") 1000).toFixedParsed 2).orZero
  , unit := "s"
  , score := metricScore audits "largest-contentful-paint"
  , category := "speed"
  , description := jsOr (descriptionOf audits "largest-contentful-paint")
      "LCP marks the point in the page load timeline when the main content has likely loaded." }

/-- The Total Blocking Time metric (lines 124-131). -/
def tbtMetric (audits : AuditMap) : PerformanceMetric :=
  { name := "Total Blocking Time"
  , value := (jsRound (numericValueOf audits "total-blocking-time").orZero : ℚ)
  , unit := "ms"
  , score := metricScore audits "total-blocking-time"
  , category := "speed"
  , description := jsOr (descriptionOf audits "total-blocking-time")
      "TBT measures the total amount of time that a page is blocked from responding to user input." }

/-- The Cumulative Layout Shift metric (lines 132-139). -/
def clsMetric (audits : AuditMap) : PerformanceMetric :=
  { name := "Cumulative Layout Shift"
  , value := roundTo 3 (numericValueOf audits "cumulative-layout-shift").orZero
  , unit := ""
  , score := metricScore audits "cumulative-layout-shift"
  , category := "ux"
  , description := jsOr (descriptionOf audits "cumulative-layout-shift")
      "CLS measures the sum total of all individual layout shift scores for every unexpected layout shift." }

/-- The SEO Score metric (lines 140-147); value and score both come from
the seo category score lookup and the description is a fixed string. -/
def seoScoreMetric (categories : CatMap) : PerformanceMetric :=
  { name := "SEO Score"
  , value := (jsRound ((catScoreOf categories "seo").orZero * 100) : ℚ)
  , unit := ""
  , score := jsRound ((catScoreOf categories "seo").orZero * 100)
  , category := "seo"
  , description := "Lighthouse SEO audit score based on search engine optimization best practices." }

/-- The Accessibility Score metric (lines 148-155). -/
def accessibilityScoreMetric (categories : CatMap) : PerformanceMetric :=
  { name := "Accessibility Score"
  , value := (jsRound ((catScoreOf categories "accessibility").orZero * 100) : ℚ)
  , unit := ""
  , score := jsRound ((catScoreOf categories "accessibility").orZero * 100)
  , category := "accessibility"
  , description := "Evaluates how accessible your website is for people with disabilities or impairments." }

/-- The fixed six-element metrics list (lines 107-156). -/
def metrics (audits : AuditMap) (categories : CatMap) : List PerformanceMetric :=
  [ fcpMetric audits
  , lcpMetric audits
  , tbtMetric audits
  , clsMetric audits
  , seoScoreMetric categories
  , accessibilityScoreMetric categories ]

/-- The `DetailedAudit` shape; `score` is `none` for the null placeholder. -/
structure DetailedAudit where
  id : String
  title : String
  score : Option ℤ
  description : String
deriving DecidableEq, Repr

/-- One detailed audit entry (lines 162-167 and 173-179): the score is the
null placeholder exactly when `audit?.score` is `undefined`; a JSON `null`
score passes the `!== undefined` test and `null * 100` coerces to `0`. -/
def mkDetailedAudit (audits : AuditMap) (id : String) : DetailedAudit :=
  { id := id
  , title := jsOr (titleOf audits id) id
  , score :=
      match scoreOf audits id with
      | .absent => none
      | .jnull => some (jsRound (0 * 100))
      | .num q => some (jsRound (q * 100))
  , description := jsOr (descriptionOf audits id) "" }

/-- The seven fixed SEO audit ids (line 159). -/
def seoAuditIds : List String :=
  ["viewport", "document-title", "meta-description", "image-alt",
   "link-text", "http-status-code", "is-crawlable"]

/-- The eight fixed accessibility audit ids (line 171). -/
def accessibilityAuditIds : List String :=
  ["color-contrast", "document-title", "html-has-lang", "image-alt",
   "label", "link-name", "list", "listitem"]

/-- The `seoAudits` list (lines 160-168): map the fixed ids, then drop
entries whose score is the null placeholder. -/
def seoAudits (audits : AuditMap) : List DetailedAudit :=
  (seoAuditIds.map (mkDetailedAudit audits)).filter
    (fun a => decide (a.score ≠ none))

/-- The `accessibilityAudits` list (lines 172-180). -/
def accessibilityAudits (audits : AuditMap) : List DetailedAudit :=
  (accessibilityAuditIds.map (mkDetailedAudit audits)).filter
    (fun a => decide (a.score ≠ none))

/-- The `overallScore` value (line 182). -/
def overallScore (categories : CatMap) : ℤ :=
  jsRound ((catScoreOf categories "performance").orZero * 100)

/-- The fixed six-entry color palette (line 186). -/
def colors : List String :=
  ["#f59e0b", "#10b981", "#3b82f6", "#8b5cf6", "#64748b", "#ec4899"]

/-- Lookup of the resource-summary audit, then `?.details?.items || []`
(line 185). -/
def resourceItems (audits : AuditMap) : List RSItem :=
  match audits "resource-summary" with
  | none => []
  | some a =>
    match a.details with
    | none => []
    | some d => d.items.getD []

/-- One resource-breakdown entry. -/
structure BreakdownEntry where
  name : Option String
  value : JNum
  color : String
deriving DecidableEq, Repr

/-- The arrow function of line 190-194: `Math.round(item.transferSize / 1024)`
receives no zero-substitution, so a missing `transferSize` gives NaN. -/
def mkBreakdownEntry (idx : ℕ) (item : RSItem) : BreakdownEntry :=
  { name := item.label
  , value := (jsDiv item.transferSize 1024).roundJ
  , color := (colors.getD (idx % colors.length) "") }

/-- JavaScript `.map((item, idx) => ...)` with the running index starting
at the first argument. -/
def mapIdxFrom (f : ℕ → RSItem → BreakdownEntry) : ℕ → List RSItem → List BreakdownEntry
  | _, [] => []
  | s, item :: rest => f s item :: mapIdxFrom f (s + 1) rest

/-- The resource-summary rows that survive the
`item.resourceType !== total` filter (line 189). -/
def filteredItems (audits : AuditMap) : List RSItem :=
  (resourceItems audits).filter (fun item => decide (item.resourceType ≠ some "total"))

/-- The `resourceBreakdown` list before the emptiness fallback
(lines 188-195): filter, map with index, `slice(0, 6)`. -/
def resourceBreakdownRaw (audits : AuditMap) : List BreakdownEntry :=
  (mapIdxFrom mkBreakdownEntry 0 (filteredItems audits)).take 6

/-- The synthesized fallback entry (line 203): name "Assets", total byte
weight converted to KB (the inner `|| 0` defaults a missing field, the outer
`|| 0` maps a rounded 0 to 0), hardcoded color "#3b82f6". -/
def assetsFallback (audits : AuditMap) : BreakdownEntry :=
  { name := some "Assets"
  , value := .num (jsRound ((numericValueOf audits "total-byte-weight").orZero / 1024))
  , color := "#3b82f6" }

/-- The returned `resourceBreakdown` (lines 202-204). -/
def resourceBreakdown (audits : AuditMap) : List BreakdownEntry :=
  if (resourceBreakdownRaw audits).length > 0 then resourceBreakdownRaw audits
  else [assetsFallback audits]

/-- The normalized report returned by `fetchLighthouseMetrics`. -/
structure NormalizedReport where
  metrics : List PerformanceMetric
  seoAudits : List DetailedAudit
  accessibilityAudits : List DetailedAudit
  overallScore : ℤ
  resourceBreakdown : List BreakdownEntry

/-- The message of the schema error thrown on line 99. -/
def schemaErrMsg : String :=
  "Analysis engine failed to return results. This often happens with sites that use heavy bot protection."

/-- Assembly of the report from a present `lighthouseResult` (lines 102-205). -/
def buildReport (lr : LighthouseResult) : NormalizedReport :=
  { metrics := metrics lr.audits lr.categories
  , seoAudits := seoAudits lr.audits
  , accessibilityAudits := accessibilityAudits lr.audits
  , overallScore := overallScore lr.categories
  , resourceBreakdown := resourceBreakdown lr.audits }

/-- Normalization of the decoded document (lines 98-205): the absence of
`data.lighthouseResult` is the one schema failure; otherwise the report is
built field by field with defaults. -/
def normalizeLighthouse (data : RawDocument) : Except String NormalizedReport :=
  match data.lighthouseResult with
  | none => .error schemaErrMsg
  | some lr => .ok (buildReport lr)

/-- An HTTP response as the retry loop sees it: only the status is read. -/
structure Response where
  status : ℕ
deriving DecidableEq, Repr

/-- Outcome of one `fetch(url)` call: a response, or a thrown network error. -/
inductive FetchOutcome where
  | ok (resp : Response)
  | err (e : String)
deriving DecidableEq, Repr

/-- One `await sleep(...)` of the retry loop; `base` is `currentBackoff` and
`jitter` is the `Math.random() * 2000` addition, present only on the
rate-limited branch. -/
structure Sleep where
  base : ℚ
  jitter : ℚ
  rateLimited : Bool
deriving DecidableEq, Repr

/-- Observable trace of one `fetchWithRetry` run: its result, the sleeps it
performed in order, and how many fetch attempts it made. -/
structure FetchTrace where
  result : Except String Response
  sleeps : List Sleep
  attempts : ℕ

/-- The rate-limit error recorded on line 25 for attempt `i + 1` of
`retries`. -/
def rateLimitMsg (attempt retries : ℕ) : String :=
  s!"The Google PageSpeed API is currently under heavy load (429). Attempt {attempt} of {retries} failed."

/-- The generic message thrown on line 53 when no error was captured. -/
def genericFailMsg : String :=
  "Connection failed after multiple attempts."

/-- The loop of lines 19-53. `outcomes i` is what the `i`-th `fetch` call
does and `rand i` the `Math.random()` draw of iteration `i`; `fuel` is the
number of loop iterations left (`retries - i`), so `0 < fuel` after consuming
one iteration is the `i < retries - 1` test of the source.  On a 429 with
attempts left it sleeps `currentBackoff` plus jitter and multiplies the
backoff by 2.5; on a thrown error with attempts left it sleeps
`currentBackoff` with no jitter and multiplies by 2; any non-429 response is
returned as is.  When the loop ends, the last captured error (or the generic
message when none was captured) is thrown. -/
def retryLoop (outcomes : ℕ → FetchOutcome) (rand : ℕ → ℚ) (retries : ℕ) :
    ℕ → ℕ → Option String → ℚ → List Sleep → ℕ → FetchTrace
  | 0, _, lastError, _, sleeps, attempts =>
      ⟨.error (lastError.getD genericFailMsg), sleeps, attempts⟩
  | fuel + 1, i, _, currentBackoff, sleeps, attempts =>
      match outcomes i with
      | .ok resp =>
          if resp.status = 429 then
            if 0 < fuel then
              retryLoop outcomes rand retries fuel (i + 1)
                (some (rateLimitMsg (i + 1) retries))
                (currentBackoff * (5 / 2))
                (sleeps ++ [⟨currentBackoff, rand i * 2000, true⟩])
                (attempts + 1)
            else
              ⟨.error (rateLimitMsg (i + 1) retries), sleeps, attempts + 1⟩
          else
            ⟨.ok resp, sleeps, attempts + 1⟩
      | .err e =>
          if 0 < fuel then
            retryLoop outcomes rand retries fuel (i + 1) (some e)
              (currentBackoff * 2)
              (sleeps ++ [⟨currentBackoff, 0, false⟩])
              (attempts + 1)
          else
            ⟨.error e, sleeps, attempts + 1⟩

/-- Entry point `fetchWithRetry` (lines 15-54) with its default
`retries = 7` and `initialBackoff = 4000`. -/
def fetchWithRetry (outcomes : ℕ → FetchOutcome) (rand : ℕ → ℚ)
    (retries : ℕ := 7) (initialBackoff : ℚ := 4000) : FetchTrace :=
  retryLoop outcomes rand retries retries 0 none initialBackoff [] 0

/-! Concrete documents and response sequences used to instantiate the
theorems below. -/

/-- An audit map with no entries. -/
def emptyAudits : AuditMap := fun _ => none

/-- A category map with no entries. -/
def emptyCats : CatMap := fun _ => none

/-- A result object whose two tables are empty. -/
def emptyLR : LighthouseResult := ⟨emptyAudits, emptyCats⟩

/-- A document carrying the empty result object. -/
def emptyDoc : RawDocument := ⟨some emptyLR⟩

/-- An audit map whose only entry is a `viewport` audit whose `score` field
is the JSON value `null`. -/
def nullScoreAudits : AuditMap :=
  fun id => if id = "viewport" then some { score := .jnull } else none

/-- An audit map whose resource summary holds one non-total row without a
`transferSize` field. -/
def nanItemAudits : AuditMap :=
  fun id =>
    if id = "resource-summary" then
      some { details := some ⟨some [⟨some "script", some "Script", .absent⟩]⟩ }
    else none

/-- A result object carrying `nanItemAudits`. -/
def nanItemLR : LighthouseResult := ⟨nanItemAudits, emptyCats⟩

/-- A document carrying `nanItemLR`. -/
def nanItemDoc : RawDocument := ⟨some nanItemLR⟩

/-- The mocked response sequence 429, 429, 200. -/
def seq429x2 : ℕ → FetchOutcome :=
  fun i => if i < 2 then .ok ⟨429⟩ else .ok ⟨200⟩

/-- A response sequence that always answers 429. -/
def always429 : ℕ → FetchOutcome := fun _ => .ok ⟨429⟩

/-- A fetch that always throws the same network error. -/
def alwaysErr : ℕ → FetchOutcome := fun _ => .err "boom"

/-- A degenerate random stream. -/
def zeroRand : ℕ → ℚ := fun _ => 0

/-! Helper lemmas shared by the claim theorems. -/

theorem jsRound_zero : jsRound 0 = 0 := by
  norm_num [jsRound]

theorem length_filter_of_map {α β : Type} (f : α → β) (p : β → Bool) (l : List α) :
    ((l.map f).filter p).length = (l.filter (fun a => p (f a))).length := by
  induction l with
  | nil => rfl
  | cons a t ih =>
      simp only [List.map_cons, List.filter_cons]
      cases p (f a) <;> simp [ih]

theorem mkDetailedAudit_score_ne_none (audits : AuditMap) (id : String) :
    ((mkDetailedAudit audits id).score ≠ none) ↔ scoreOf audits id ≠ JsonNum.absent := by
  cases h : scoreOf audits id <;> simp [mkDetailedAudit, h]

/-- C2: normalization fails (with the schema error, returning no partial
report) exactly when the document lacks `lighthouseResult`, and succeeds
with a report exactly when that field is present. -/
theorem normalize_schema_error_iff (data : RawDocument) :
    (normalizeLighthouse data = Except.error schemaErrMsg ↔ data.lighthouseResult = none)
    ∧ ((normalizeLighthouse data).isOk = true ↔ data.lighthouseResult.isSome = true) := by
  cases h : data.lighthouseResult <;>
    simp [normalizeLighthouse, h, Except.isOk, Except.toBool]

/-- C3: every report produced by normalization carries exactly the six fixed
metrics, by name and in order, whatever the audit and category tables hold. -/
theorem metrics_fixed_names (data : RawDocument) (rep : NormalizedReport)
    (h : normalizeLighthouse data = Except.ok rep) :
    rep.metrics.map PerformanceMetric.name =
      ["First Contentful Paint", "Largest Contentful Paint", "Total Blocking Time",
       "Cumulative Layout Shift", "SEO Score", "Accessibility Score"] := by
  cases hd : data.lighthouseResult with
  | none => simp [normalizeLighthouse, hd] at h
  | some lr =>
      simp only [normalizeLighthouse, hd, Except.ok.injEq] at h
      subst h
      rfl

theorem metrics_fixed_names_witness :
    (buildReport emptyLR).metrics.map PerformanceMetric.name =
      ["First Contentful Paint", "Largest Contentful Paint", "Total Blocking Time",
       "Cumulative Layout Shift", "SEO Score", "Accessibility Score"] :=
  metrics_fixed_names emptyDoc (buildReport emptyLR) rfl

/-- C5: on the mocked sequence 429, 429, 200 (with default attempts and
initial delay), the fetcher returns the 200 response after exactly two
sleeps, both on the rate-limit branch; the second base delay is the first
multiplied by 2.5, and each jitter lies in [0, 2000). -/
theorem retry_429_429_200 (rand : ℕ → ℚ) (h : ∀ i, 0 ≤ rand i ∧ rand i < 1) :
    (fetchWithRetry seq429x2 rand).result = Except.ok ⟨200⟩
    ∧ (fetchWithRetry seq429x2 rand).sleeps.length = 2
    ∧ (fetchWithRetry seq429x2 rand).sleeps.map Sleep.base = [4000, 4000 * (5 / 2)]
    ∧ ∀ s ∈ (fetchWithRetry seq429x2 rand).sleeps,
        s.rateLimited = true ∧ 0 ≤ s.jitter ∧ s.jitter < 2000 := by
  have htrace : fetchWithRetry seq429x2 rand =
      ⟨Except.ok ⟨200⟩,
       [⟨4000, rand 0 * 2000, true⟩, ⟨4000 * (5 / 2), rand 1 * 2000, true⟩],
       3⟩ := rfl
  refine ⟨by rw [htrace], by rw [htrace]; rfl, by rw [htrace]; rfl, ?_⟩
  intro s hs
  rw [htrace] at hs
  have bound : ∀ i : ℕ, 0 ≤ rand i * 2000 ∧ rand i * 2000 < 2000 := by
    intro i
    constructor
    · exact mul_nonneg (h i).1 (by norm_num)
    · have h2 : rand i * 2000 < 1 * 2000 :=
        mul_lt_mul_of_pos_right (h i).2 (by norm_num)
      linarith
  simp only [List.mem_cons, List.not_mem_nil, or_false] at hs
  rcases hs with hs | hs <;> subst hs
  · exact ⟨rfl, (bound 0).1, (bound 0).2⟩
  · exact ⟨rfl, (bound 1).1, (bound 1).2⟩

theorem retry_429_429_200_witness :
    (fetchWithRetry seq429x2 zeroRand).result = Except.ok ⟨200⟩
    ∧ (fetchWithRetry seq429x2 zeroRand).sleeps.map Sleep.base = [4000, 4000 * (5 / 2)] := by
  have h := retry_429_429_200 zeroRand (fun i => ⟨le_refl 0, by norm_num [zeroRand]⟩)
  exact ⟨h.1, h.2.2.1⟩

/-- C7: with a single allowed attempt and a first response of 429, the
fetcher raises the rate-limit error at once, after exactly one fetch call
and no sleep. -/
theorem retry_single_attempt_429 (outcomes : ℕ → FetchOutcome) (rand : ℕ → ℚ)
    (b : ℚ) (h : outcomes 0 = .ok ⟨429⟩) :
    fetchWithRetry outcomes rand 1 b = ⟨Except.error (rateLimitMsg 1 1), [], 1⟩ := by
  show retryLoop outcomes rand 1 (0 + 1) 0 none b [] 0 = _
  simp only [retryLoop, h]
  norm_num

theorem retry_single_attempt_429_witness :
    fetchWithRetry always429 zeroRand 1 4000 = ⟨Except.error (rateLimitMsg 1 1), [], 1⟩ :=
  retry_single_attempt_429 always429 zeroRand 4000 rfl

theorem retryLoop_all_errors (outcomes : ℕ → FetchOutcome) (rand : ℕ → ℚ)
    (retries : ℕ) (e : ℕ → String) (he : ∀ j, outcomes j = .err (e j)) :
    ∀ (fuel i : ℕ) (le : Option String) (b : ℚ) (sl : List Sleep) (k : ℕ),
      0 < fuel →
      (retryLoop outcomes rand retries fuel i le b sl k).result =
        Except.error (e (i + fuel - 1)) := by
  intro fuel
  induction fuel with
  | zero => intro i le b sl k h0; exact absurd h0 (by norm_num)
  | succ f ih =>
      intro i le b sl k _
      simp only [retryLoop, he i]
      by_cases hf : 0 < f
      · simp only [hf, if_true]
        have := ih (i + 1) (some (e i)) (b * 2) (sl ++ [⟨b, 0, false⟩]) (k + 1) hf
        rw [this]
        congr 2
        omega
      · have hf0 : f = 0 := by omega
        subst hf0
        simp

/-- C8 counterexample: on exhaustion with no captured error the message is
"Connection failed after multiple attempts." (capital C, trailing period),
not the string the claim quotes. -/
theorem generic_error_message_counterexample :
    (fetchWithRetry alwaysErr zeroRand 0 4000).result =
      Except.error "Connection failed after multiple attempts."
    ∧ "Connection failed after multiple attempts."
        ≠ "connection failed after multiple attempts" := by
  constructor
  · rfl
  · decide

/-- C8 (amended): if the loop exhausts its attempts with no captured error
(which happens exactly when zero attempts are allowed), the fetcher fails
with the generic message "Connection failed after multiple attempts."; when
every attempt throws, the last captured error is the one surfaced. -/
theorem retry_exhaustion_errors (outcomes : ℕ → FetchOutcome) (rand : ℕ → ℚ)
    (b : ℚ) (e : ℕ → String) (retries : ℕ) (hr : 0 < retries)
    (he : ∀ j, outcomes j = .err (e j)) :
    (fetchWithRetry outcomes rand 0 b).result = Except.error genericFailMsg
    ∧ (fetchWithRetry outcomes rand retries b).result = Except.error (e (retries - 1)) := by
  constructor
  · rfl
  · have := retryLoop_all_errors outcomes rand retries e he retries 0 none b [] 0 hr
    simpa [fetchWithRetry] using this

theorem retry_exhaustion_errors_witness :
    (fetchWithRetry alwaysErr zeroRand 0 4000).result = Except.error genericFailMsg
    ∧ (fetchWithRetry alwaysErr zeroRand 3 4000).result = Except.error "boom" :=
  retry_exhaustion_errors alwaysErr zeroRand 4000 (fun _ => "boom") 3 (by norm_num)
    (fun _ => rfl)

/-- C1 counterexample: a document whose only audit is `viewport` with a JSON
`null` score still yields a `viewport` entry (with score 0) in the SEO list,
so a null score does not contribute "no entry" as the claim states. -/
theorem audit_null_score_kept_counterexample :
    scoreOf nullScoreAudits "viewport" = JsonNum.jnull
    ∧ seoAudits nullScoreAudits = [⟨"viewport", "viewport", some 0, ""⟩] := by
  constructor
  · rfl
  · simp [seoAudits, seoAuditIds, mkDetailedAudit, nullScoreAudits, scoreOf, titleOf,
      descriptionOf, jsOr, jsRound_zero]

/-- C1 (amended): no entry of either detailed-audit list has the null-score
placeholder, and the length of each list counts the fixed ids whose `score` field
is not `undefined`; a score of exactly 0 is kept, an absent audit or absent
score field contributes no entry, but a score that is present with JSON value
`null` passes the `!== undefined` test and is kept with output score 0. -/
theorem audit_lists_filtered (audits : AuditMap) :
    (seoAudits audits).length
      = (seoAuditIds.filter (fun id => decide (scoreOf audits id ≠ JsonNum.absent))).length
    ∧ (accessibilityAudits audits).length
      = (accessibilityAuditIds.filter
          (fun id => decide (scoreOf audits id ≠ JsonNum.absent))).length
    ∧ (∀ a ∈ seoAudits audits, a.score ≠ none)
    ∧ (∀ a ∈ accessibilityAudits audits, a.score ≠ none)
    ∧ (∀ id, scoreOf audits id = JsonNum.num 0 → (mkDetailedAudit audits id).score = some 0)
    ∧ (∀ id, scoreOf audits id = JsonNum.jnull → (mkDetailedAudit audits id).score = some 0) := by
  have hpt : ∀ id, (decide ((mkDetailedAudit audits id).score ≠ none))
      = (decide (scoreOf audits id ≠ JsonNum.absent)) := fun id =>
    decide_eq_decide.mpr (mkDetailedAudit_score_ne_none audits id)
  have hlen : ∀ l : List String,
      ((l.map (mkDetailedAudit audits)).filter (fun a => decide (a.score ≠ none))).length
        = (l.filter (fun id => decide (scoreOf audits id ≠ JsonNum.absent))).length := by
    intro l
    rw [length_filter_of_map, List.filter_congr (fun x _ => hpt x)]
  refine ⟨hlen seoAuditIds, hlen accessibilityAuditIds, ?_, ?_, ?_, ?_⟩
  · intro a ha
    simp only [seoAudits, List.mem_filter, decide_eq_true_eq] at ha
    exact ha.2
  · intro a ha
    simp only [accessibilityAudits, List.mem_filter, decide_eq_true_eq] at ha
    exact ha.2
  · intro id h
    simp [mkDetailedAudit, h, jsRound_zero]
  · intro id h
    simp [mkDetailedAudit, h, jsRound_zero]

theorem audit_lists_filtered_witness :
    (seoAudits nullScoreAudits).length
      = (seoAuditIds.filter
          (fun id => decide (scoreOf nullScoreAudits id ≠ JsonNum.absent))).length
    ∧ (mkDetailedAudit nullScoreAudits "viewport").score = some 0 :=
  ⟨(audit_lists_filtered nullScoreAudits).1,
   (audit_lists_filtered nullScoreAudits).2.2.2.2.2 "viewport" rfl⟩

/-- C4: for each of the six fixed metrics, an absent source field degrades
that component to its zero default: the value becomes the numeric 0 (never
NaN, never missing), the score becomes 0, and the description falls back to
the fixed metric-specific sentence (the two category metrics carry their
fixed sentence unconditionally). -/
theorem metric_defaults (audits : AuditMap) (categories : CatMap) :
    (numericValueOf audits "first-contentful-paint" = JsonNum.absent →
        (fcpMetric audits).value = 0)
    ∧ (scoreOf audits "first-contentful-paint" = JsonNum.absent →
        (fcpMetric audits).score = 0)
    ∧ (descriptionOf audits "first-contentful-paint" = none →
        (fcpMetric audits).description =
          "FCP measures how long it takes for the browser to render the first piece of DOM content.")
    ∧ (numericValueOf audits "largest-contentful-paint" = JsonNum.absent →
        (lcpMetric audits).value = 0)
    ∧ (scoreOf audits "largest-contentful-paint" = JsonNum.absent →
        (lcpMetric audits).score = 0)
    ∧ (descriptionOf audits "largest-contentful-paint" = none →
        (lcpMetric audits).description =
          "LCP marks the point in the page load timeline when the main content has likely loaded.")
    ∧ (numericValueOf audits "total-blocking-time" = JsonNum.absent →
        (tbtMetric audits).value = 0)
    ∧ (scoreOf audits "total-blocking-time" = JsonNum.absent →
        (tbtMetric audits).score = 0)
    ∧ (descriptionOf audits "total-blocking-time" = none →
        (tbtMetric audits).description =
          "TBT measures the total amount of time that a page is blocked from responding to user input.")
    ∧ (numericValueOf audits "cumulative-layout-shift" = JsonNum.absent →
        (clsMetric audits).value = 0)
    ∧ (scoreOf audits "cumulative-layout-shift" = JsonNum.absent →
        (clsMetric audits).score = 0)
    ∧ (descriptionOf audits "cumulative-layout-shift" = none →
        (clsMetric audits).description =
          "CLS measures the sum total of all individual layout shift scores for every unexpected layout shift.")
    ∧ (catScoreOf categories "seo" = JsonNum.absent →
        (seoScoreMetric categories).value = 0 ∧ (seoScoreMetric categories).score = 0)
    ∧ (seoScoreMetric categories).description =
        "Lighthouse SEO audit score based on search engine optimization best practices."
    ∧ (catScoreOf categories "accessibility" = JsonNum.absent →
        (accessibilityScoreMetric categories).value = 0
          ∧ (accessibilityScoreMetric categories).score = 0)
    ∧ (accessibilityScoreMetric categories).description =
        "Evaluates how accessible your website is for people with disabilities or impairments." := by
  refine ⟨?_, ?_, ?_, ?_, ?_, ?_, ?_, ?_, ?_, ?_, ?_, ?_, ?_, rfl, ?_, rfl⟩
  · intro h; simp [fcpMetric, h, jsDiv, JNum.toFixedParsed, JNum.orZero]
  · intro h; simp [fcpMetric, metricScore, h, JsonNum.orZero, jsRound_zero]
  · intro h; simp [fcpMetric, jsOr, h]
  · intro h; simp [lcpMetric, h, jsDiv, JNum.toFixedParsed, JNum.orZero]
  · intro h; simp [lcpMetric, metricScore, h, JsonNum.orZero, jsRound_zero]
  · intro h; simp [lcpMetric, jsOr, h]
  · intro h; simp [tbtMetric, h, JsonNum.orZero, jsRound_zero]
  · intro h; simp [tbtMetric, metricScore, h, JsonNum.orZero, jsRound_zero]
  · intro h; simp [tbtMetric, jsOr, h]
  · intro h; simp [clsMetric, roundTo, h, JsonNum.orZero, jsRound_zero]
  · intro h; simp [clsMetric, metricScore, h, JsonNum.orZero, jsRound_zero]
  · intro h; simp [clsMetric, jsOr, h]
  · intro h
    constructor <;> simp [seoScoreMetric, h, JsonNum.orZero, jsRound_zero]
  · intro h
    constructor <;> simp [accessibilityScoreMetric, h, JsonNum.orZero, jsRound_zero]

theorem metric_defaults_witness :
    (fcpMetric emptyAudits).value = 0 ∧ (fcpMetric emptyAudits).score = 0
    ∧ (fcpMetric emptyAudits).description =
        "FCP measures how long it takes for the browser to render the first piece of DOM content."
    ∧ (lcpMetric emptyAudits).value = 0 ∧ (lcpMetric emptyAudits).score = 0
    ∧ (lcpMetric emptyAudits).description =
        "LCP marks the point in the page load timeline when the main content has likely loaded."
    ∧ (tbtMetric emptyAudits).value = 0 ∧ (tbtMetric emptyAudits).score = 0
    ∧ (tbtMetric emptyAudits).description =
        "TBT measures the total amount of time that a page is blocked from responding to user input."
    ∧ (clsMetric emptyAudits).value = 0 ∧ (clsMetric emptyAudits).score = 0
    ∧ (clsMetric emptyAudits).description =
        "CLS measures the sum total of all individual layout shift scores for every unexpected layout shift."
    ∧ ((seoScoreMetric emptyCats).value = 0 ∧ (seoScoreMetric emptyCats).score = 0)
    ∧ ((accessibilityScoreMetric emptyCats).value = 0
        ∧ (accessibilityScoreMetric emptyCats).score = 0) := by
  obtain ⟨h1, h2, h3, h4, h5, h6, h7, h8, h9, h10, h11, h12, h13, _, h15, _⟩ :=
    metric_defaults emptyAudits emptyCats
  exact ⟨h1 rfl, h2 rfl, h3 rfl, h4 rfl, h5 rfl, h6 rfl, h7 rfl, h8 rfl, h9 rfl,
    h10 rfl, h11 rfl, h12 rfl, h13 rfl, h15 rfl⟩

theorem mapIdxFrom_length (f : ℕ → RSItem → BreakdownEntry) :
    ∀ (s : ℕ) (l : List RSItem), (mapIdxFrom f s l).length = l.length := by
  intro s l
  induction l generalizing s with
  | nil => rfl
  | cons a t ih => simp [mapIdxFrom, ih]

theorem mapIdxFrom_getD (f : ℕ → RSItem → BreakdownEntry) (d : BreakdownEntry)
    (d0 : RSItem) :
    ∀ (l : List RSItem) (s i : ℕ), i < l.length →
      (mapIdxFrom f s l).getD i d = f (s + i) (l.getD i d0) := by
  intro l
  induction l with
  | nil => intro s i h; simp at h
  | cons a t ih =>
      intro s i h
      cases i with
      | zero => simp [mapIdxFrom]
      | succ j =>
          simp only [mapIdxFrom, List.getD_cons_succ]
          rw [ih (s + 1) j (by simpa using h)]
          congr 1
          omega

theorem getD_take {α : Type} (d : α) :
    ∀ (l : List α) (n i : ℕ), i < n → (l.take n).getD i d = l.getD i d := by
  intro l
  induction l with
  | nil => intro n i h; simp
  | cons a t ih =>
      intro n i h
      cases n with
      | zero => omega
      | succ m =>
          cases i with
          | zero => simp
          | succ j => simpa using ih m j (by omega)

/-- C6 counterexample: with an empty source summary the synthesized entry
carries the hardcoded color "#3b82f6" — the third entry of the palette — while
the first color of the palette is "#f59e0b", so the claimed "first color of
the palette" is false. -/
theorem fallback_color_counterexample :
    (buildReport emptyLR).resourceBreakdown = [⟨some "Assets", JNum.num 0, "#3b82f6"⟩]
    ∧ colors.getD 0 "" = "#f59e0b"
    ∧ colors.getD 2 "" = "#3b82f6"
    ∧ (buildReport emptyLR).resourceBreakdown.map BreakdownEntry.color
        ≠ [colors.getD 0 ""] := by
  have hfb : (buildReport emptyLR).resourceBreakdown
      = [⟨some "Assets", JNum.num 0, "#3b82f6"⟩] := by
    simp [buildReport, resourceBreakdown, resourceBreakdownRaw, filteredItems,
      resourceItems, emptyLR, emptyAudits, mapIdxFrom, assetsFallback,
      numericValueOf, JsonNum.orZero, jsRound_zero]
  refine ⟨hfb, rfl, rfl, ?_⟩
  rw [hfb]
  decide

/-- C6 (amended): whenever the filtered, converted resource-summary list is
empty, the normalizer returns exactly one synthesized entry named "Assets"
whose value is the total-byte-weight field converted to integer kilobytes
(0 KB when absent), carrying the hardcoded color "#3b82f6", which is the
third entry of the palette, not its first. -/
theorem fallback_assets_entry (lr : LighthouseResult)
    (h : filteredItems lr.audits = []) :
    (buildReport lr).resourceBreakdown
      = [⟨some "Assets",
          JNum.num (jsRound ((numericValueOf lr.audits "total-byte-weight").orZero / 1024)),
          "#3b82f6"⟩]
    ∧ (numericValueOf lr.audits "total-byte-weight" = JsonNum.absent →
        (buildReport lr).resourceBreakdown = [⟨some "Assets", JNum.num 0, "#3b82f6"⟩])
    ∧ colors.getD 2 "" = "#3b82f6" := by
  have hmain : (buildReport lr).resourceBreakdown = [assetsFallback lr.audits] := by
    simp [buildReport, resourceBreakdown, resourceBreakdownRaw, h, mapIdxFrom]
  refine ⟨by rw [hmain]; rfl, ?_, rfl⟩
  intro h2
  rw [hmain]
  simp [assetsFallback, h2, JsonNum.orZero, jsRound_zero]

theorem fallback_assets_entry_witness :
    (buildReport emptyLR).resourceBreakdown
      = [⟨some "Assets",
          JNum.num (jsRound ((numericValueOf emptyLR.audits "total-byte-weight").orZero / 1024)),
          "#3b82f6"⟩]
    ∧ (buildReport emptyLR).resourceBreakdown = [⟨some "Assets", JNum.num 0, "#3b82f6"⟩] :=
  ⟨(fallback_assets_entry emptyLR rfl).1, (fallback_assets_entry emptyLR rfl).2.1 rfl⟩

/-- C9: every report built from a document carrying the top-level result has
a resource breakdown of at most 6 entries and at least one entry; when every
source row is a "total" row (which covers the empty and the absent source
list), the single synthesized fallback entry is returned instead. -/
theorem breakdown_bounds (data : RawDocument) (lr : LighthouseResult)
    (rep : NormalizedReport) (hd : data.lighthouseResult = some lr)
    (h : normalizeLighthouse data = Except.ok rep) :
    rep.resourceBreakdown.length ≤ 6
    ∧ rep.resourceBreakdown ≠ []
    ∧ ((∀ item ∈ resourceItems lr.audits, item.resourceType = some "total") →
        rep.resourceBreakdown = [assetsFallback lr.audits]) := by
  have hrep : rep = buildReport lr := by
    simp only [normalizeLighthouse, hd, Except.ok.injEq] at h
    exact h.symm
  subst hrep
  refine ⟨?_, ?_, ?_⟩
  · show (resourceBreakdown lr.audits).length ≤ 6
    unfold resourceBreakdown
    by_cases hl : (resourceBreakdownRaw lr.audits).length > 0
    · rw [if_pos hl]
      unfold resourceBreakdownRaw
      rw [List.length_take]
      exact min_le_left _ _
    · rw [if_neg hl]
      norm_num
  · show resourceBreakdown lr.audits ≠ []
    unfold resourceBreakdown
    by_cases hl : (resourceBreakdownRaw lr.audits).length > 0
    · rw [if_pos hl]
      exact List.length_pos.mp hl
    · rw [if_neg hl]
      simp
  · intro hall
    have hfil : filteredItems lr.audits = [] := by
      rw [filteredItems, List.filter_eq_nil_iff]
      intro a ha
      simp [hall a ha]
    show resourceBreakdown lr.audits = _
    simp [resourceBreakdown, resourceBreakdownRaw, hfil, mapIdxFrom]

theorem breakdown_bounds_witness :
    (buildReport emptyLR).resourceBreakdown.length ≤ 6
    ∧ (buildReport emptyLR).resourceBreakdown ≠ []
    ∧ (buildReport emptyLR).resourceBreakdown = [assetsFallback emptyLR.audits] := by
  have h := breakdown_bounds emptyDoc emptyLR (buildReport emptyLR) rfl rfl
  refine ⟨h.1, h.2.1, h.2.2 ?_⟩
  intro item hi
  simp [resourceItems, emptyLR, emptyAudits] at hi

/-- C10: a non-total resource row lacking the `transferSize` field does not
make normalization fail, but the value of its breakdown entry is NaN — resource
rows receive no zero-substitution before the bytes-to-kilobytes division,
unlike the six fixed metrics. -/
theorem breakdown_nan_value (data : RawDocument) (lr : LighthouseResult)
    (rep : NormalizedReport) (hd : data.lighthouseResult = some lr)
    (h : normalizeLighthouse data = Except.ok rep)
    (i : ℕ) (hi : i < (filteredItems lr.audits).length) (h6 : i < 6)
    (hts : ((filteredItems lr.audits).getD i ⟨none, none, JsonNum.absent⟩).transferSize
        = JsonNum.absent) :
    (normalizeLighthouse data).isOk = true
    ∧ i < rep.resourceBreakdown.length
    ∧ (rep.resourceBreakdown.getD i ⟨none, JNum.nan, ""⟩).value = JNum.nan := by
  have hrep : rep = buildReport lr := by
    simp only [normalizeLighthouse, hd, Except.ok.injEq] at h
    exact h.symm
  subst hrep
  have hlenraw : (resourceBreakdownRaw lr.audits).length
      = min 6 (filteredItems lr.audits).length := by
    simp [resourceBreakdownRaw, List.length_take, mapIdxFrom_length]
  have hiraw : i < (resourceBreakdownRaw lr.audits).length := by omega
  have hpos : 0 < (resourceBreakdownRaw lr.audits).length := by omega
  have hbd : (buildReport lr).resourceBreakdown = resourceBreakdownRaw lr.audits := by
    show resourceBreakdown lr.audits = _
    simp [resourceBreakdown, hpos]
  refine ⟨by simp [normalizeLighthouse, hd, Except.isOk, Except.toBool], ?_, ?_⟩
  · rw [hbd]; exact hiraw
  · rw [hbd]
    unfold resourceBreakdownRaw
    rw [getD_take (⟨none, JNum.nan, ""⟩ : BreakdownEntry)
        (mapIdxFrom mkBreakdownEntry 0 (filteredItems lr.audits)) 6 i h6,
      mapIdxFrom_getD mkBreakdownEntry _ ⟨none, none, JsonNum.absent⟩ _ 0 i hi]
    have hval : (mkBreakdownEntry (0 + i)
        ((filteredItems lr.audits).getD i ⟨none, none, JsonNum.absent⟩)).value
        = (jsDiv ((filteredItems lr.audits).getD i
            ⟨none, none, JsonNum.absent⟩).transferSize 1024).roundJ := rfl
    rw [hval, hts]
    rfl

theorem breakdown_nan_value_witness :
    (normalizeLighthouse nanItemDoc).isOk = true
    ∧ 0 < (buildReport nanItemLR).resourceBreakdown.length
    ∧ ((buildReport nanItemLR).resourceBreakdown.getD 0 ⟨none, JNum.nan, ""⟩).value
        = JNum.nan :=
  breakdown_nan_value nanItemDoc nanItemLR (buildReport nanItemLR) rfl rfl 0
    (by decide) (by norm_num) rfl
